import Mathlib

/-!
Shallow embedding of the qrgates ticket-purchase core.

Sources:
* `src/unnamed/part_000` — the Prisma schema (models `Event`, `TicketType`,
  `Order`, `Ticket`, enum `OrderStatus`).
* `src/unnamed/part_001` — the Next.js route handler; the `POST` function
  (lines 71–244) is the Order/Ticket Issuance Orchestrator.

Modelling conventions:
* Database ids (cuid strings in the schema) are `Nat`; the database assigns
  fresh ids with counters (`nextOrderId`, `nextTicketId`), mirroring cuid
  uniqueness.
* Prices (`Float` in the schema) are `Int`: every claim about them is
  discrete arithmetic (products and sums), faithfully represented.
* JSON-absent / JS-falsy request fields are `Option`: `some` models a
  truthy value supplied by the client (ids and names in the source are
  non-empty strings, hence truthy when present).  The numeric `price`
  override keeps its own truthiness test (`0` is falsy in JS), modelled
  explicitly by `truthyPrice`.
* Each `await prisma.…` call is one atomic database operation on the `DB`
  state, sequenced exactly as in the source.
* `sendTicketEmail` (external collaborator) is a parameter
  `emailOk : Nat → Bool` consulted at the created order's id; `false`
  models the promise rejecting, which the source's `try/catch` turns into
  a generic 500 response.
-/

namespace QRGates

/-- Schema `TicketType` (part_000 lines 112–128): capacity `quantity`,
running `soldCount`, price, name, owning event. -/
structure TicketType where
  id : Nat
  name : String
  price : Int
  quantity : Int
  soldCount : Int
  eventId : Nat
deriving DecidableEq, Repr

/-- Schema `Event` (part_000 lines 83–110), with its included
`ticketTypes` relation as the handler fetches it (part_001 lines 97–102). -/
structure Event where
  id : Nat
  title : String
  price : Int
  totalTickets : Int
  soldTickets : Int
  ticketTypes : List TicketType
deriving DecidableEq, Repr

/-- Schema enum `OrderStatus` (part_000 lines 287–292). -/
inductive OrderStatus where
  | PENDING
  | COMPLETED
  | CANCELLED
  | REFUNDED
deriving DecidableEq, Repr

/-- Schema `Order` (part_000 lines 165–183).  `status` defaults to
`PENDING`; the handler's `order.create` (part_001 lines 146–155) supplies
only `total`, `userId`, `eventId`, so the other fields take defaults. -/
structure Order where
  id : Nat
  total : Int
  orderStatus : OrderStatus
  paymentMethod : Option String
  paymentId : Option String
  reference : Option String
  userId : Nat
  eventId : Nat
deriving DecidableEq, Repr

/-- Modelled from the spec: the repository's `generateQRCode`
(`@/lib/qr-code`, not under `src/`) renders a payload embedding exactly
the fields the handler passes it (part_001 lines 160–166) — event id,
user id, order id, sequence number, issuance timestamp — as spec §6
"Credential encoding" describes.  The encoding is injective on this
tuple, so we keep the decoded payload itself. -/
structure QRPayload where
  eventId : Nat
  userId : Nat
  orderId : Nat
  ticketNumber : Nat
  timestamp : Nat
deriving DecidableEq, Repr

/-- Schema `Ticket` (part_000 lines 140–163), fields the handler sets
(part_001 lines 168–176). -/
structure Ticket where
  id : Nat
  qrCode : QRPayload
  type : String
  price : Int
  eventId : Nat
  userId : Nat
  orderId : Nat
  ticketTypeId : Option Nat
deriving DecidableEq, Repr

/-- The database state touched by the purchase path. -/
structure DB where
  events : List Event
  orders : List Order
  tickets : List Ticket
  nextOrderId : Nat
  nextTicketId : Nat
deriving DecidableEq, Repr

/-- One cart line item as destructured at part_001 line 88:
`{ eventId, quantity = 1, ticketTypeId, ticketType, price }`. -/
structure Item where
  eventId : Option Nat
  quantity : Option Int
  ticketTypeId : Option Nat
  ticketType : Option String
  price : Option Int
deriving DecidableEq, Repr

/-- The request body as destructured at part_001 line 79:
`{ items, userInfo, paymentMethod, total }`. -/
structure Body where
  items : List Item
  userInfo : Option String
  paymentMethod : Option String
  total : Option Int
deriving DecidableEq, Repr

/-- JS truthiness of the numeric `price` override (part_001 line 142:
`price ? price * quantity : …`): absent and `0` are falsy. -/
def truthyPrice : Option Int → Bool
  | none => false
  | some p => p != 0

/-- The order object returned by `prisma.order.create` with
`include: { event: true }` (part_001 lines 146–155): the order row plus
the included `event` relation.  `tickets` records which relation rows are
nested in the returned object; the create's `include` clause does not
name `tickets`, so the handler leaves it `none`. -/
structure CreatedOrder where
  order : Order
  event : Event
  tickets : Option (List Ticket)
deriving DecidableEq, Repr

/-- The handler's JSON response: `ok` carries the 201 payload
`{ orders: createdOrders }` (part_001 line 236), `err` a
`{ error: msg }` with its HTTP status. -/
inductive PostResponse where
  | ok (statusCode : Nat) (orders : List CreatedOrder)
  | err (statusCode : Nat) (msg : String)
deriving DecidableEq, Repr

/-- Outcome of one loop iteration (part_001 lines 87–234): `ok` carries
the database after the item's commits and the created order pushed onto
`createdOrders`; `fail` carries the database at the moment the handler
returns (or throws into the `catch`), with the HTTP status and message. -/
inductive ItemResult where
  | ok (db : DB) (created : CreatedOrder)
  | fail (db : DB) (statusCode : Nat) (msg : String)
deriving DecidableEq, Repr

/-- Ticket-type resolution, part_001 lines 108–132: by id (404 when the
id matches no type of the event), else by name, else the event's first
type; a name miss or an event without types falls into the
`!ticketTypeObj` branch (400). -/
def resolveTT (item : Item) (event : Event) : Except (Nat × String) TicketType :=
  match item.ticketTypeId with
  | some tid =>
    match event.ticketTypes.find? (fun t => t.id == tid) with
    | none => .error (404, "Ticket type not found")
    | some t => .ok t
  | none =>
    match (match item.ticketType with
           | some nm => event.ticketTypes.find? (fun t => t.name == nm)
           | none => event.ticketTypes.head?) with
    | none => .error (400, "No ticket types available for this event")
    | some t => .ok t

/-- `prisma.ticketType.update` (part_001 lines 215–222): increment
`soldCount` of the ticket type with id `ttId` by `q`.  The row lives
inside its event's included list, so the update maps over every event's
list; ticket-type ids are globally unique (cuid), so exactly the one row
changes. -/
def incTicketTypeSold (ttId : Nat) (q : Int) (events : List Event) : List Event :=
  events.map fun e =>
    { e with ticketTypes := e.ticketTypes.map fun t =>
        if t.id == ttId then { t with soldCount := t.soldCount + q } else t }

/-- `prisma.event.update` (part_001 lines 224–231): increment
`soldTickets` of event `eid` by `q`. -/
def incEventSold (eid : Nat) (q : Int) (events : List Event) : List Event :=
  events.map fun e =>
    if e.id == eid then { e with soldTickets := e.soldTickets + q } else e

/-- The tickets the loop at part_001 lines 159–177 builds for one order:
sequence numbers `1 … q`, one shared issuance timestamp `now`
(`Date.now()`), type name and price copied from the resolved ticket
type.  `createMany` (lines 179–181) assigns ids from the counter. -/
def mintTickets (uid now eid orderId ttId baseTicketId : Nat) (ttName : String)
    (ttPrice : Int) (q : Nat) : List Ticket :=
  (List.range q).map fun i =>
    { id := baseTicketId + i
      qrCode := { eventId := eid, userId := uid, orderId := orderId,
                  ticketNumber := i + 1, timestamp := now }
      type := ttName
      price := ttPrice
      eventId := eid
      userId := uid
      orderId := orderId
      ticketTypeId := some ttId }

/-- One iteration of the `for (const item of items)` loop,
part_001 lines 87–234, with every `await prisma.…` an atomic step on
`db` in source order: event fetch, ticket-type resolution, availability
check, order create, ticket createMany, email send, ticket-type
increment, event increment. -/
def processItem (emailOk : Nat → Bool) (uid now : Nat) (db : DB) (item : Item) :
    ItemResult :=
  match item.eventId with
  | none => .fail db 400 "Missing eventId in item"
  | some eid =>
    match db.events.find? (fun e => e.id == eid) with
    | none => .fail db 404 "Event not found"
    | some event =>
      match resolveTT item event with
      | .error (s, m) => .fail db s m
      | .ok tt =>
        let q : Int := item.quantity.getD 1
        if tt.quantity - tt.soldCount < q then
          .fail db 400 "Not enough tickets available"
        else
          let orderTotal : Int :=
            if truthyPrice item.price then (item.price.getD 0) * q
            else tt.price * q
          let order : Order :=
            { id := db.nextOrderId, total := orderTotal,
              orderStatus := .PENDING, paymentMethod := none,
              paymentId := none, reference := none,
              userId := uid, eventId := eid }
          let db1 : DB :=
            { db with orders := db.orders ++ [order],
                      nextOrderId := db.nextOrderId + 1 }
          let newTickets :=
            mintTickets uid now eid order.id tt.id db1.nextTicketId
              tt.name tt.price q.toNat
          let db2 : DB :=
            { db1 with tickets := db1.tickets ++ newTickets,
                       nextTicketId := db1.nextTicketId + q.toNat }
          if emailOk order.id then
            let db3 : DB :=
              { db2 with events :=
                  incEventSold eid q (incTicketTypeSold tt.id q db2.events) }
            .ok db3 { order := order, event := event, tickets := none }
          else
            .fail db2 500 "Failed to create order"

/-- The loop over `items` with the accumulator `createdOrders`
(part_001 lines 85–236): the first failing item ends the request with
its error response; an exhausted loop returns 201 with the orders. -/
def processItems (emailOk : Nat → Bool) (uid now : Nat) :
    DB → List Item → List CreatedOrder → DB × PostResponse
  | db, [], acc => (db, .ok 201 acc)
  | db, item :: rest, acc =>
    match processItem emailOk uid now db item with
    | .ok db' created => processItems emailOk uid now db' rest (acc ++ [created])
    | .fail db' s m => (db', .err s m)

/-- The `POST` handler, part_001 lines 71–244: session check (401),
cart-shape check (400 on empty `items`), then the per-item loop.  Of the
request body only `items` is ever read past the destructuring. -/
def POST (emailOk : Nat → Bool) (sessionUserId : Option Nat) (now : Nat)
    (db : DB) (body : Body) : DB × PostResponse :=
  match sessionUserId with
  | none => (db, .err 401 "Unauthorized")
  | some uid =>
    if body.items.isEmpty then (db, .err 400 "No items in order")
    else processItems emailOk uid now db body.items []

/-!
Concurrency model for the availability check.  The handler performs the
check and the increment as two independent `await`s with no transaction:
the read of `soldCount` happens inside the event fetch (part_001 lines
97–102, consumed by the check at lines 134–135), and the increment is a
separate unconditional `prisma.ticketType.update` (lines 215–222).  Each
`await` is one atomic database step; between a request's steps, other
requests' steps may run.  A thread below is one one-unit purchase
request against a single ticket type, reduced to the two steps that
touch the ledger.
-/

/-- Program counter of one one-unit purchase request: `ready` (about to
fetch the event, i.e. read `soldCount`), `checked s` (holds the stale
snapshot `s` it read), `committed` (ran the unconditional increment),
`rejected` (its availability check failed). -/
inductive TPC where
  | ready
  | checked (snapshot : Int)
  | committed
  | rejected
deriving DecidableEq, Repr

/-- The shared `TicketType` row (capacity and sold counter) plus each
request's program counter. -/
structure ConcState where
  quantity : Int
  soldCount : Int
  threads : List TPC
deriving DecidableEq, Repr

/-- One atomic database step of thread `i`: a `ready` thread reads the
current `soldCount` (the event fetch); a `checked` thread evaluates
`availableTickets < quantity` on its snapshot (part_001 line 135 with
requested quantity 1) and, if it passes, runs `soldCount: { increment }`
on the current value (lines 215–222). -/
def concStep (s : ConcState) (i : Nat) : ConcState :=
  match s.threads.get? i with
  | some .ready => { s with threads := s.threads.set i (.checked s.soldCount) }
  | some (.checked snap) =>
    if s.quantity - snap < 1 then
      { s with threads := s.threads.set i .rejected }
    else
      { s with soldCount := s.soldCount + 1,
               threads := s.threads.set i .committed }
  | _ => s

/-- Run an interleaving: the schedule lists which thread takes the next
atomic step. -/
def concRun (s : ConcState) (sched : List Nat) : ConcState :=
  sched.foldl concStep s

/-- The database reached by an item outcome (the handler returns it to the
client implicitly: these are the rows committed when the response goes
out). -/
def ItemResult.resultDB : ItemResult → DB
  | .ok db _ => db
  | .fail db _ _ => db

/-- The orders carried by a response (`[]` for error responses). -/
def PostResponse.respOrders : PostResponse → List CreatedOrder
  | .ok _ os => os
  | .err _ _ => []

/-- Ledger comparison on one ticket type: same row, sold counter not
decreased. -/
def ttLE (t t' : TicketType) : Prop :=
  t.id = t'.id ∧ t.soldCount ≤ t'.soldCount

/-- Ledger comparison on one event: same row, `soldTickets` not
decreased, and every ticket-type counter not decreased. -/
def eventLE (e e' : Event) : Prop :=
  e.id = e'.id ∧ e.soldTickets ≤ e'.soldTickets ∧
    List.Forall₂ ttLE e.ticketTypes e'.ticketTypes

/-- Pointwise ledger comparison on the whole event table. -/
def ledgerLE (l l' : List Event) : Prop :=
  List.Forall₂ eventLE l l'

/-- All credential payloads in the ticket table are pairwise distinct. -/
def qrDistinct (l : List Ticket) : Prop :=
  l.Pairwise fun a b => a.qrCode ≠ b.qrCode

/-- Every stored credential embeds an order id already allocated: the
order-id counter is strictly ahead of every minted payload. -/
def qrFresh (db : DB) : Prop :=
  ∀ t ∈ db.tickets, t.qrCode.orderId < db.nextOrderId

/-- The order row `prisma.order.create` inserts for one line item
(part_001 lines 146–155): server-computed total (part_001 lines 142–144),
all other writable fields left to schema defaults. -/
def itemOrder (uid : Nat) (db : DB) (item : Item) (eid : Nat) (tt : TicketType) : Order :=
  { id := db.nextOrderId,
    total := if truthyPrice item.price then (item.price.getD 0) * (item.quantity.getD 1)
             else tt.price * (item.quantity.getD 1),
    orderStatus := .PENDING, paymentMethod := none, paymentId := none,
    reference := none, userId := uid, eventId := eid }

/-!  Concrete fixtures used by witnesses and counterexamples. -/

/-- A "VIP" ticket type with capacity 2, nothing sold, price 5. -/
def sampleTT : TicketType :=
  { id := 10, name := "VIP", price := 5, quantity := 2, soldCount := 0,
    eventId := 1 }

/-- An event holding `sampleTT`. -/
def sampleEvent : Event :=
  { id := 1, title := "E", price := 5, totalTickets := 2, soldTickets := 0,
    ticketTypes := [sampleTT] }

/-- A database with the one event, empty order/ticket tables. -/
def sampleDB : DB :=
  { events := [sampleEvent], orders := [], tickets := [],
    nextOrderId := 100, nextTicketId := 200 }

/-- `sampleDB` after both VIP tickets have been sold. -/
def soldOutDB : DB :=
  { events := [{ sampleEvent with
      soldTickets := 2,
      ticketTypes := [{ sampleTT with soldCount := 2 }] }],
    orders := [], tickets := [], nextOrderId := 100, nextTicketId := 200 }

/-- Cart item: two VIP tickets by name, no price override. -/
def vipItem : Item :=
  { eventId := some 1, quantity := some 2, ticketTypeId := none,
    ticketType := some "VIP", price := none }

/-- Cart item: one VIP ticket by name. -/
def oneVip : Item :=
  { eventId := some 1, quantity := some 1, ticketTypeId := none,
    ticketType := some "VIP", price := none }

/-- Cart item carrying a negative quantity, as the loosely-typed cart
allows. -/
def negQtyItem : Item :=
  { eventId := some 1, quantity := some (-1), ticketTypeId := none,
    ticketType := none, price := none }

/-- Cart item with a price override of `0` (falsy in JS). -/
def zeroPriceItem : Item :=
  { eventId := some 1, quantity := some 2, ticketTypeId := none,
    ticketType := none, price := some 0 }

/-- Cart item with a truthy price override of `3`. -/
def overrideItem : Item :=
  { eventId := some 1, quantity := some 2, ticketTypeId := none,
    ticketType := none, price := some 3 }

/-- Cart item naming a ticket type that the event does not have. -/
def nameMissItem : Item :=
  { eventId := some 1, quantity := some 1, ticketTypeId := none,
    ticketType := some "GOLD", price := none }

/-- Cart item with a ticket-type id that the event does not have. -/
def idMissItem : Item :=
  { eventId := some 1, quantity := some 1, ticketTypeId := some 99,
    ticketType := none, price := none }

/-- Cart body wrapping a single item with no client extras. -/
def mkBody (it : Item) : Body :=
  { items := [it], userInfo := none, paymentMethod := none, total := none }

/-! ## Helper lemmas -/

theorem processItem_ok (emailOk : Nat → Bool) (uid now : Nat) (db : DB)
    (item : Item) (eid : Nat) (ev : Event) (tt : TicketType)
    (hE : item.eventId = some eid)
    (hF : db.events.find? (fun e => e.id == eid) = some ev)
    (hR : resolveTT item ev = .ok tt)
    (hA : ¬ tt.quantity - tt.soldCount < item.quantity.getD 1)
    (hM : emailOk db.nextOrderId = true) :
    processItem emailOk uid now db item =
      .ok
        { events := incEventSold eid (item.quantity.getD 1)
            (incTicketTypeSold tt.id (item.quantity.getD 1) db.events),
          orders := db.orders ++ [itemOrder uid db item eid tt],
          tickets := db.tickets ++ mintTickets uid now eid db.nextOrderId tt.id
            db.nextTicketId tt.name tt.price (item.quantity.getD 1).toNat,
          nextOrderId := db.nextOrderId + 1,
          nextTicketId := db.nextTicketId + (item.quantity.getD 1).toNat }
        { order := itemOrder uid db item eid tt, event := ev, tickets := none } := by
  unfold processItem
  rw [hE]
  dsimp only
  rw [hF]
  dsimp only
  rw [hR]
  simp only [if_neg hA, hM, if_true, itemOrder]

theorem processItem_emailFail (emailOk : Nat → Bool) (uid now : Nat) (db : DB)
    (item : Item) (eid : Nat) (ev : Event) (tt : TicketType)
    (hE : item.eventId = some eid)
    (hF : db.events.find? (fun e => e.id == eid) = some ev)
    (hR : resolveTT item ev = .ok tt)
    (hA : ¬ tt.quantity - tt.soldCount < item.quantity.getD 1)
    (hM : emailOk db.nextOrderId = false) :
    processItem emailOk uid now db item =
      .fail
        { events := db.events,
          orders := db.orders ++ [itemOrder uid db item eid tt],
          tickets := db.tickets ++ mintTickets uid now eid db.nextOrderId tt.id
            db.nextTicketId tt.name tt.price (item.quantity.getD 1).toNat,
          nextOrderId := db.nextOrderId + 1,
          nextTicketId := db.nextTicketId + (item.quantity.getD 1).toNat }
        500 "Failed to create order" := by
  unfold processItem
  rw [hE]
  dsimp only
  rw [hF]
  dsimp only
  rw [hR]
  simp only [if_neg hA, hM, if_true, itemOrder, Bool.false_eq_true, if_false]

theorem processItem_resolveErr (emailOk : Nat → Bool) (uid now : Nat) (db : DB)
    (item : Item) (eid : Nat) (ev : Event) (s : Nat) (m : String)
    (hE : item.eventId = some eid)
    (hF : db.events.find? (fun e => e.id == eid) = some ev)
    (hR : resolveTT item ev = .error (s, m)) :
    processItem emailOk uid now db item = .fail db s m := by
  unfold processItem
  rw [hE]
  dsimp only
  rw [hF]
  dsimp only
  rw [hR]

theorem processItem_insufficient (emailOk : Nat → Bool) (uid now : Nat) (db : DB)
    (item : Item) (eid : Nat) (ev : Event) (tt : TicketType)
    (hE : item.eventId = some eid)
    (hF : db.events.find? (fun e => e.id == eid) = some ev)
    (hR : resolveTT item ev = .ok tt)
    (hA : tt.quantity - tt.soldCount < item.quantity.getD 1) :
    processItem emailOk uid now db item =
      .fail db 400 "Not enough tickets available" := by
  unfold processItem
  rw [hE]
  dsimp only
  rw [hF]
  dsimp only
  rw [hR]
  simp only [if_pos hA]

theorem find?_map_preserve (f : Event → Event) (hf : ∀ e, (f e).id = e.id)
    (events : List Event) (eid : Nat) :
    (events.map f).find? (fun e => e.id == eid) =
      (events.find? (fun e => e.id == eid)).map f := by
  induction events with
  | nil => rfl
  | cons e es ih =>
    by_cases h : (e.id == eid) = true
    · rw [List.map_cons,
        List.find?_cons_of_pos (p := fun x : Event => x.id == eid) _ (by simpa [hf e] using h),
        List.find?_cons_of_pos (p := fun x : Event => x.id == eid) _ h]
      rfl
    · rw [List.map_cons,
        List.find?_cons_of_neg (p := fun x : Event => x.id == eid) _ (by simpa [hf e] using h),
        List.find?_cons_of_neg (p := fun x : Event => x.id == eid) _ h, ih]

theorem find?_incTicketTypeSold (ttId : Nat) (q : Int) (events : List Event)
    (eid : Nat) :
    (incTicketTypeSold ttId q events).find? (fun e => e.id == eid) =
      (events.find? (fun e => e.id == eid)).map
        (fun e => { e with ticketTypes := e.ticketTypes.map fun t =>
            if t.id == ttId then { t with soldCount := t.soldCount + q } else t }) :=
  find?_map_preserve
    (fun e => { e with ticketTypes := e.ticketTypes.map fun t =>
        if t.id == ttId then { t with soldCount := t.soldCount + q } else t })
    (fun _ => rfl) events eid

theorem find?_incEventSold (eid : Nat) (q : Int) (events : List Event) :
    (incEventSold eid q events).find? (fun e => e.id == eid) =
      (events.find? (fun e => e.id == eid)).map
        (fun e => if e.id == eid then { e with soldTickets := e.soldTickets + q }
                  else e) :=
  find?_map_preserve
    (fun e => if e.id == eid then { e with soldTickets := e.soldTickets + q } else e)
    (fun e => by by_cases h : (e.id == eid) = true <;> simp [h]) events eid


theorem resolveTT_mem (item : Item) (ev : Event) (tt : TicketType)
    (h : resolveTT item ev = .ok tt) : tt ∈ ev.ticketTypes := by
  unfold resolveTT at h
  cases hid : item.ticketTypeId with
  | some tid =>
    rw [hid] at h
    try dsimp only at h
    cases hf : ev.ticketTypes.find? (fun t => t.id == tid) with
    | none => rw [hf] at h; cases h
    | some t =>
      rw [hf] at h
      cases h
      exact List.mem_of_find?_eq_some hf
  | none =>
    rw [hid] at h
    try dsimp only at h
    cases hty : item.ticketType with
    | some nm =>
      rw [hty] at h
      try dsimp only at h
      cases hf : ev.ticketTypes.find? (fun t => t.name == nm) with
      | none => rw [hf] at h; cases h
      | some t =>
        rw [hf] at h
        cases h
        exact List.mem_of_find?_eq_some hf
    | none =>
      rw [hty] at h
      try dsimp only at h
      cases hl : ev.ticketTypes with
      | nil => rw [hl] at h; cases h
      | cons a l =>
        rw [hl] at h
        try dsimp only at h
        cases h
        exact List.mem_cons_self _ _

theorem POST_single (emailOk : Nat → Bool) (uid now : Nat) (db : DB)
    (item : Item) (ui pm : Option String) (tot : Option Int) :
    POST emailOk (some uid) now db
        { items := [item], userInfo := ui, paymentMethod := pm, total := tot } =
      match processItem emailOk uid now db item with
      | .ok db2 c => (db2, .ok 201 [c])
      | .fail db2 s m => (db2, .err s m) := by
  show processItems emailOk uid now db [item] [] = _
  unfold processItems
  cases processItem emailOk uid now db item with
  | ok db2 c => rfl
  | fail db2 s m => rfl

/-- Claim C1 (confirmed): for a purchase line item of quantity Q against a
TicketType whose availability (quantity - soldCount) is at least Q, the
POST purchase operation succeeds (201) and afterwards the TicketType's
soldCount equals its prior soldCount plus Q, the Event's soldTickets
equals its prior soldTickets plus Q, and exactly Q new Ticket records
exist, each referencing the newly created Order, the event, the buyer,
and the resolved TicketType. -/
theorem purchase_success_postconditions
    (emailOk : Nat → Bool) (uid now : Nat) (db : DB) (item : Item)
    (eid : Nat) (ev : Event) (tt : TicketType) (Q : Int)
    (ui pm : Option String) (tot : Option Int)
    (hE : item.eventId = some eid)
    (hF : db.events.find? (fun e => e.id == eid) = some ev)
    (hR : resolveTT item ev = .ok tt)
    (hQ : item.quantity.getD 1 = Q)
    (hQ0 : 0 ≤ Q)
    (hAvail : Q ≤ tt.quantity - tt.soldCount)
    (hMail : emailOk db.nextOrderId = true) :
    ∃ db2 order newTickets,
      POST emailOk (some uid) now db
          { items := [item], userInfo := ui, paymentMethod := pm, total := tot } =
        (db2, .ok 201 [{ order := order, event := ev, tickets := none }]) ∧
      order.userId = uid ∧ order.eventId = eid ∧
      db2.orders = db.orders ++ [order] ∧
      db2.tickets = db.tickets ++ newTickets ∧
      (newTickets.length : Int) = Q ∧
      (∀ t ∈ newTickets, t.orderId = order.id ∧ t.eventId = eid ∧
        t.userId = uid ∧ t.ticketTypeId = some tt.id) ∧
      db2.events.find? (fun e => e.id == eid) =
        some { ev with
          soldTickets := ev.soldTickets + Q,
          ticketTypes := ev.ticketTypes.map fun t =>
            if t.id == tt.id then { t with soldCount := t.soldCount + Q }
            else t } ∧
      { tt with soldCount := tt.soldCount + Q } ∈
        (ev.ticketTypes.map fun t =>
          if t.id == tt.id then { t with soldCount := t.soldCount + Q }
          else t) := by
  have hA : ¬ tt.quantity - tt.soldCount < item.quantity.getD 1 := by
    rw [hQ]; exact not_lt.mpr hAvail
  refine ⟨{ events :=
              incEventSold eid (item.quantity.getD 1)
                (incTicketTypeSold tt.id (item.quantity.getD 1) db.events),
            orders := db.orders ++ [itemOrder uid db item eid tt],
            tickets :=
              db.tickets ++ mintTickets uid now eid db.nextOrderId tt.id
                db.nextTicketId tt.name tt.price (item.quantity.getD 1).toNat,
            nextOrderId := db.nextOrderId + 1,
            nextTicketId := db.nextTicketId + (item.quantity.getD 1).toNat },
    itemOrder uid db item eid tt,
    mintTickets uid now eid db.nextOrderId tt.id db.nextTicketId tt.name
      tt.price (item.quantity.getD 1).toNat, ?_, rfl, rfl, rfl, rfl, ?_, ?_, ?_, ?_⟩
  · rw [POST_single, processItem_ok emailOk uid now db item eid ev tt hE hF hR hA hMail]
  · simp [mintTickets, hQ, Int.toNat_of_nonneg hQ0]
  · intro t ht
    simp only [mintTickets, List.mem_map, List.mem_range] at ht
    obtain ⟨i, hi, rfl⟩ := ht
    exact ⟨rfl, rfl, rfl, rfl⟩
  · have hevid : (ev.id == eid) = true :=
      List.find?_some (p := fun x : Event => x.id == eid) hF
    rw [find?_incEventSold, find?_incTicketTypeSold, hF]
    simp [hevid, hQ]
    intro hcontra
    exact absurd (by simpa using hevid) hcontra
  · have hmem := resolveTT_mem item ev tt hR
    have h2 := List.mem_map_of_mem
      (fun t => if t.id == tt.id then { t with soldCount := t.soldCount + Q }
                else t) hmem
    simpa using h2

/-- Witness for C1: two VIP tickets bought against capacity 2. -/
theorem purchase_success_witness :
    vipItem.eventId = some 1 ∧
    sampleDB.events.find? (fun e => e.id == 1) = some sampleEvent ∧
    resolveTT vipItem sampleEvent = .ok sampleTT ∧
    vipItem.quantity.getD 1 = 2 ∧ (0:Int) ≤ 2 ∧
    (2:Int) ≤ sampleTT.quantity - sampleTT.soldCount ∧
    (fun _ : Nat => true) sampleDB.nextOrderId = true ∧
    (∃ db2 order newTickets,
      POST (fun _ => true) (some 7) 999 sampleDB
          { items := [vipItem], userInfo := none, paymentMethod := none,
            total := none } =
        (db2, .ok 201 [{ order := order, event := sampleEvent, tickets := none }]) ∧
      order.userId = 7 ∧ order.eventId = 1 ∧
      db2.orders = sampleDB.orders ++ [order] ∧
      db2.tickets = sampleDB.tickets ++ newTickets ∧
      (newTickets.length : Int) = 2 ∧
      (∀ t ∈ newTickets, t.orderId = order.id ∧ t.eventId = 1 ∧
        t.userId = 7 ∧ t.ticketTypeId = some sampleTT.id) ∧
      db2.events.find? (fun e => e.id == 1) =
        some { sampleEvent with
          soldTickets := sampleEvent.soldTickets + 2,
          ticketTypes := sampleEvent.ticketTypes.map fun t =>
            if t.id == sampleTT.id then { t with soldCount := t.soldCount + 2 }
            else t } ∧
      { sampleTT with soldCount := sampleTT.soldCount + 2 } ∈
        (sampleEvent.ticketTypes.map fun t =>
          if t.id == sampleTT.id then { t with soldCount := t.soldCount + 2 }
          else t)) :=
  ⟨rfl, rfl, rfl, rfl, by decide, by decide, rfl,
    purchase_success_postconditions (fun _ => true) 7 999 sampleDB vipItem 1
      sampleEvent sampleTT 2 none none none rfl rfl rfl rfl (by decide)
      (by decide) rfl⟩

/-- Claim C2 (confirmed): when the requested quantity exceeds the
TicketType's availability, POST creates no Order, no Ticket, performs no
ledger mutation (the database is returned unchanged), and returns the
InsufficientInventory error — the 400 response with message
"Not enough tickets available" (part_001 lines 134-140). -/
theorem purchase_insufficient_inventory
    (emailOk : Nat → Bool) (uid now : Nat) (db : DB) (item : Item)
    (eid : Nat) (ev : Event) (tt : TicketType)
    (ui pm : Option String) (tot : Option Int)
    (hE : item.eventId = some eid)
    (hF : db.events.find? (fun e => e.id == eid) = some ev)
    (hR : resolveTT item ev = .ok tt)
    (hA : tt.quantity - tt.soldCount < item.quantity.getD 1) :
    POST emailOk (some uid) now db
        { items := [item], userInfo := ui, paymentMethod := pm, total := tot } =
      (db, .err 400 "Not enough tickets available") := by
  rw [POST_single,
    processItem_insufficient emailOk uid now db item eid ev tt hE hF hR hA]

/-- Witness for C2, the spec's scenario: VIP has quantity 2 and soldCount
2 (available 0); a purchase of 1 fails and leaves the state untouched. -/
theorem purchase_insufficient_inventory_witness :
    soldOutDB.events.find? (fun e => e.id == 1) =
      some { sampleEvent with
        soldTickets := 2, ticketTypes := [{ sampleTT with soldCount := 2 }] } ∧
    resolveTT oneVip { sampleEvent with
        soldTickets := 2, ticketTypes := [{ sampleTT with soldCount := 2 }] } =
      .ok { sampleTT with soldCount := 2 } ∧
    ({ sampleTT with soldCount := 2 } : TicketType).quantity -
        ({ sampleTT with soldCount := 2 } : TicketType).soldCount <
      oneVip.quantity.getD 1 ∧
    POST (fun _ => true) (some 7) 999 soldOutDB
        { items := [oneVip], userInfo := none, paymentMethod := none,
          total := none } =
      (soldOutDB, .err 400 "Not enough tickets available") :=
  ⟨rfl, rfl, by decide,
    purchase_insufficient_inventory (fun _ => true) 7 999 soldOutDB oneVip 1
      { sampleEvent with
        soldTickets := 2,
        ticketTypes := [{ sampleTT with soldCount := 2 }] }
      { sampleTT with soldCount := 2 } none none none rfl rfl rfl (by decide)⟩

/-- Claim C3 (code bug): the claim says N concurrent one-unit purchases
never drive soldCount past quantity, the check and increment acting as
one serialized atomic step.  The source performs the availability read
(part_001 lines 97-102 and 134-135) and the unconditional increment
(lines 215-222) as two independent awaits with no transaction.  In the
interleaving model this theorem exhibits the race the spec forbids:
capacity 1, two requests, schedule (read, read, increment, increment)
ends with soldCount 2 greater than quantity 1, both threads committed. -/
theorem conc_check_then_act_oversell :
    (concRun { quantity := 1, soldCount := 0, threads := [.ready, .ready] }
      [0, 1, 0, 1]).soldCount = 2 ∧
    ¬ (concRun { quantity := 1, soldCount := 0, threads := [.ready, .ready] }
        [0, 1, 0, 1]).soldCount ≤
      (concRun { quantity := 1, soldCount := 0, threads := [.ready, .ready] }
        [0, 1, 0, 1]).quantity ∧
    (concRun { quantity := 1, soldCount := 0, threads := [.ready, .ready] }
      [0, 1, 0, 1]).threads = [.committed, .committed] := by
  refine ⟨?_, ?_, ?_⟩ <;> decide

theorem ttLE_trans {a b c : TicketType} (h1 : ttLE a b) (h2 : ttLE b c) :
    ttLE a c :=
  ⟨h1.1.trans h2.1, h1.2.trans h2.2⟩

theorem forall₂_ttLE_trans :
    ∀ {l1 l2 l3 : List TicketType}, List.Forall₂ ttLE l1 l2 →
      List.Forall₂ ttLE l2 l3 → List.Forall₂ ttLE l1 l3 := by
  intro l1 l2 l3 h1 h2
  induction h1 generalizing l3 with
  | nil => cases h2; exact .nil
  | cons h t ih =>
    cases h2 with
    | cons h2h h2t => exact .cons (ttLE_trans h h2h) (ih h2t)

theorem eventLE_trans {a b c : Event} (h1 : eventLE a b) (h2 : eventLE b c) :
    eventLE a c :=
  ⟨h1.1.trans h2.1, h1.2.1.trans h2.2.1, forall₂_ttLE_trans h1.2.2 h2.2.2⟩

theorem ledgerLE_refl (l : List Event) : ledgerLE l l := by
  refine List.forall₂_same.mpr fun e _ => ⟨rfl, le_refl _, ?_⟩
  exact List.forall₂_same.mpr fun t _ => ⟨rfl, le_refl _⟩

theorem ledgerLE_trans :
    ∀ {l1 l2 l3 : List Event}, ledgerLE l1 l2 → ledgerLE l2 l3 →
      ledgerLE l1 l3 := by
  intro l1 l2 l3 h1 h2
  induction h1 generalizing l3 with
  | nil => cases h2; exact .nil
  | cons h t ih =>
    cases h2 with
    | cons h2h h2t => exact .cons (eventLE_trans h h2h) (ih h2t)

theorem incTicketTypeSold_ledgerLE (ttId : Nat) (q : Int) (events : List Event)
    (hq : 0 ≤ q) : ledgerLE events (incTicketTypeSold ttId q events) := by
  unfold ledgerLE incTicketTypeSold
  rw [List.forall₂_map_right_iff]
  refine List.forall₂_same.mpr fun e _ => ⟨rfl, le_refl _, ?_⟩
  rw [List.forall₂_map_right_iff]
  refine List.forall₂_same.mpr fun t _ => ?_
  by_cases h : (t.id == ttId) = true
  · simp only [h, if_true]
    exact ⟨rfl, le_add_of_nonneg_right hq⟩
  · simp only [h, if_false]
    exact ⟨rfl, le_refl _⟩

theorem incEventSold_ledgerLE (eid : Nat) (q : Int) (events : List Event)
    (hq : 0 ≤ q) : ledgerLE events (incEventSold eid q events) := by
  unfold ledgerLE incEventSold
  rw [List.forall₂_map_right_iff]
  refine List.forall₂_same.mpr fun e _ => ?_
  by_cases h : (e.id == eid) = true
  · simp only [h, if_true]
    refine ⟨rfl, le_add_of_nonneg_right hq, ?_⟩
    exact List.forall₂_same.mpr fun t _ => ⟨rfl, le_refl _⟩
  · simp only [h, if_false]
    refine ⟨rfl, le_refl _, ?_⟩
    exact List.forall₂_same.mpr fun t _ => ⟨rfl, le_refl _⟩

theorem processItem_ledgerLE (emailOk : Nat → Bool) (uid now : Nat) (db : DB)
    (item : Item) (hq : 0 ≤ item.quantity.getD 1) :
    ledgerLE db.events
      (processItem emailOk uid now db item).resultDB.events := by
  unfold processItem
  split
  · exact ledgerLE_refl _
  · split
    · exact ledgerLE_refl _
    · split
      · exact ledgerLE_refl _
      · dsimp only
        split
        · exact ledgerLE_refl _
        · split
          · exact ledgerLE_trans
              (incTicketTypeSold_ledgerLE _ _ _ hq)
              (incEventSold_ledgerLE _ _ _ hq)
          · exact ledgerLE_refl _

theorem processItems_ledgerLE (emailOk : Nat → Bool) (uid now : Nat) :
    ∀ (items : List Item) (db : DB) (acc : List CreatedOrder),
      (∀ it ∈ items, 0 ≤ it.quantity.getD 1) →
      ledgerLE db.events
        (processItems emailOk uid now db items acc).1.events := by
  intro items
  induction items with
  | nil => intro db acc _; exact ledgerLE_refl _
  | cons it rest ih =>
    intro db acc h
    unfold processItems
    cases hres : processItem emailOk uid now db it with
    | ok db2 c =>
      have h1 : ledgerLE db.events db2.events := by
        have h2 := processItem_ledgerLE emailOk uid now db it
          (h it (List.mem_cons_self it rest))
        rw [hres] at h2
        exact h2
      exact ledgerLE_trans h1
        (ih db2 (acc ++ [c]) fun x hx => h x (List.mem_cons_of_mem it hx))
    | fail db2 st m =>
      have h2 := processItem_ledgerLE emailOk uid now db it
        (h it (List.mem_cons_self it rest))
      rw [hres] at h2
      exact h2

/-- Claim C4 (corrected, amended form): for every purchase request in
which each item's quantity (default 1) is non-negative, POST never
decreases any TicketType.soldCount or Event.soldTickets.  The original
claim quantified over any integer quantity; the counterexample shows a
negative quantity is not rejected and is passed to the increments. -/
theorem post_ledger_monotone (emailOk : Nat → Bool) (s : Option Nat)
    (now : Nat) (db : DB) (body : Body)
    (h : ∀ it ∈ body.items, 0 ≤ it.quantity.getD 1) :
    ledgerLE db.events (POST emailOk s now db body).1.events := by
  unfold POST
  cases s with
  | none => exact ledgerLE_refl _
  | some uid =>
    by_cases he : body.items.isEmpty = true
    · simp only [he, if_true]
      exact ledgerLE_refl _
    · simp only [he, if_false]
      exact processItems_ledgerLE emailOk uid now body.items db [] h

/-- Witness for C4 (amended): a normal two-ticket purchase only grows the
ledger. -/
theorem post_ledger_monotone_witness :
    (∀ it ∈ (mkBody vipItem).items, 0 ≤ it.quantity.getD 1) ∧
    ledgerLE sampleDB.events
      (POST (fun _ => true) (some 7) 999 sampleDB (mkBody vipItem)).1.events :=
  ⟨by decide,
    post_ledger_monotone (fun _ => true) (some 7) 999 sampleDB (mkBody vipItem)
      (by decide)⟩

/-- Counterexample for C4 as stated: a cart item with quantity -1 passes
the availability check (available is never below -1), creates an order
with negative total and no tickets, and then decrements soldCount and
soldTickets of the sample event from 0 to -1. -/
theorem ledger_negative_decrement_counterexample :
    ((POST (fun _ => true) (some 7) 999 sampleDB
        { items := [negQtyItem], userInfo := none, paymentMethod := none,
          total := none }).1.events.map Event.soldTickets) = [-1] ∧
    ((POST (fun _ => true) (some 7) 999 sampleDB
        { items := [negQtyItem], userInfo := none, paymentMethod := none,
          total := none }).1.events.map
      fun e => e.ticketTypes.map TicketType.soldCount) = [[-1]] ∧
    sampleDB.events.map Event.soldTickets = [0] ∧
    (sampleDB.events.map fun e => e.ticketTypes.map TicketType.soldCount) =
      [[0]] ∧
    (POST (fun _ => true) (some 7) 999 sampleDB
        { items := [negQtyItem], userInfo := none, paymentMethod := none,
          total := none }).2 =
      .ok 201
        [{ order :=
             { id := 100, total := -5, orderStatus := .PENDING,
               paymentMethod := none, paymentId := none, reference := none,
               userId := 7, eventId := 1 },
           event := sampleEvent,
           tickets := none }] := by
  refine ⟨?_, ?_, ?_, ?_, ?_⟩ <;> decide

/-- Claim C5 (corrected, amended form): when ticket delivery fails after
the Order and Tickets are persisted, they remain committed (no
rollback), but the ledger increments for the item are never performed
(they are sequenced after the email at part_001 lines 196-231) and the
failure is surfaced as the generic 500 response, not as a
partial-success signal. -/
theorem delivery_failure_keeps_order_drops_ledger
    (emailOk : Nat → Bool) (uid now : Nat) (db : DB) (item : Item)
    (eid : Nat) (ev : Event) (tt : TicketType)
    (ui pm : Option String) (tot : Option Int)
    (hE : item.eventId = some eid)
    (hF : db.events.find? (fun e => e.id == eid) = some ev)
    (hR : resolveTT item ev = .ok tt)
    (hA : ¬ tt.quantity - tt.soldCount < item.quantity.getD 1)
    (hMail : emailOk db.nextOrderId = false) :
    ∃ order newTickets,
      POST emailOk (some uid) now db
          { items := [item], userInfo := ui, paymentMethod := pm, total := tot } =
        ({ events := db.events,
           orders := db.orders ++ [order],
           tickets := db.tickets ++ newTickets,
           nextOrderId := db.nextOrderId + 1,
           nextTicketId := db.nextTicketId + (item.quantity.getD 1).toNat },
         .err 500 "Failed to create order") ∧
      newTickets.length = (item.quantity.getD 1).toNat ∧
      (∀ t ∈ newTickets, t.orderId = order.id) := by
  refine ⟨itemOrder uid db item eid tt,
    mintTickets uid now eid db.nextOrderId tt.id db.nextTicketId tt.name
      tt.price (item.quantity.getD 1).toNat, ?_, ?_, ?_⟩
  · rw [POST_single,
      processItem_emailFail emailOk uid now db item eid ev tt hE hF hR hA hMail]
  · simp [mintTickets]
  · intro t ht
    simp only [mintTickets, List.mem_map, List.mem_range] at ht
    obtain ⟨i, hi, rfl⟩ := ht
    rfl

/-- Witness for C5 (amended): delivery failing on a two-ticket purchase. -/
theorem delivery_failure_witness :
    vipItem.eventId = some 1 ∧
    sampleDB.events.find? (fun e => e.id == 1) = some sampleEvent ∧
    resolveTT vipItem sampleEvent = .ok sampleTT ∧
    ¬ sampleTT.quantity - sampleTT.soldCount < vipItem.quantity.getD 1 ∧
    (fun _ : Nat => false) sampleDB.nextOrderId = false ∧
    (∃ order newTickets,
      POST (fun _ => false) (some 7) 999 sampleDB
          { items := [vipItem], userInfo := none, paymentMethod := none,
            total := none } =
        ({ events := sampleDB.events,
           orders := sampleDB.orders ++ [order],
           tickets := sampleDB.tickets ++ newTickets,
           nextOrderId := sampleDB.nextOrderId + 1,
           nextTicketId := sampleDB.nextTicketId +
             (vipItem.quantity.getD 1).toNat },
         .err 500 "Failed to create order") ∧
      newTickets.length = (vipItem.quantity.getD 1).toNat ∧
      (∀ t ∈ newTickets, t.orderId = order.id)) :=
  ⟨rfl, rfl, rfl, by decide, rfl,
    delivery_failure_keeps_order_drops_ledger (fun _ => false) 7 999 sampleDB
      vipItem 1 sampleEvent sampleTT none none none rfl rfl rfl (by decide) rfl⟩

/-- Counterexample for C5 as stated: with delivery failing, the response
is the generic 500 with no partial-success signal identifying succeeded
items, and the ledger increments are not committed, while the order and
both tickets are. -/
theorem delivery_failure_counterexample :
    (POST (fun _ => false) (some 7) 999 sampleDB
        { items := [vipItem], userInfo := none, paymentMethod := none,
          total := none }).2 = .err 500 "Failed to create order" ∧
    (POST (fun _ => false) (some 7) 999 sampleDB
        { items := [vipItem], userInfo := none, paymentMethod := none,
          total := none }).1.events = sampleDB.events ∧
    (POST (fun _ => false) (some 7) 999 sampleDB
        { items := [vipItem], userInfo := none, paymentMethod := none,
          total := none }).1.orders ≠ [] ∧
    (POST (fun _ => false) (some 7) 999 sampleDB
        { items := [vipItem], userInfo := none, paymentMethod := none,
          total := none }).1.tickets.length = 2 := by
  refine ⟨?_, ?_, ?_, ?_⟩ <;> decide

/-- Counterexample for C6 as stated: a supplied override of 0 with
quantity 2 against price-5 tickets yields total 10, not the 0 that
nullish coalescing would give. -/
theorem price_zero_override_counterexample :
    ((POST (fun _ => true) (some 7) 999 sampleDB
        { items := [zeroPriceItem], userInfo := none, paymentMethod := none,
          total := none }).1.orders.map Order.total) = [10] ∧
    ¬ ((POST (fun _ => true) (some 7) 999 sampleDB
        { items := [zeroPriceItem], userInfo := none, paymentMethod := none,
          total := none }).1.orders.map Order.total) = [0] := by
  refine ⟨?_, ?_⟩ <;> decide

/-- Claim C6 (corrected, amended form): the created Order's total is
(override if truthy, else the ticket type's price) times quantity.  The
source uses JS truthiness (part_001 lines 142-144), not nullish
coalescing, so an override of 0 falls back to the ticket type's price. -/
theorem order_total_truthy_override
    (emailOk : Nat → Bool) (uid now : Nat) (db : DB) (item : Item)
    (eid : Nat) (ev : Event) (tt : TicketType)
    (ui pm : Option String) (tot : Option Int)
    (hE : item.eventId = some eid)
    (hF : db.events.find? (fun e => e.id == eid) = some ev)
    (hR : resolveTT item ev = .ok tt)
    (hA : ¬ tt.quantity - tt.soldCount < item.quantity.getD 1)
    (hMail : emailOk db.nextOrderId = true) :
    ∃ db2 order,
      POST emailOk (some uid) now db
          { items := [item], userInfo := ui, paymentMethod := pm, total := tot } =
        (db2, .ok 201 [{ order := order, event := ev, tickets := none }]) ∧
      order.total =
        (if truthyPrice item.price then item.price.getD 0 else tt.price) *
          (item.quantity.getD 1) := by
  refine ⟨{ events :=
              incEventSold eid (item.quantity.getD 1)
                (incTicketTypeSold tt.id (item.quantity.getD 1) db.events),
            orders := db.orders ++ [itemOrder uid db item eid tt],
            tickets :=
              db.tickets ++ mintTickets uid now eid db.nextOrderId tt.id
                db.nextTicketId tt.name tt.price (item.quantity.getD 1).toNat,
            nextOrderId := db.nextOrderId + 1,
            nextTicketId := db.nextTicketId + (item.quantity.getD 1).toNat },
    itemOrder uid db item eid tt, ?_, ?_⟩
  · rw [POST_single,
      processItem_ok emailOk uid now db item eid ev tt hE hF hR hA hMail]
  · unfold itemOrder
    by_cases h : truthyPrice item.price = true
    · simp only [h, if_true]
    · simp only [h, if_false]
      simp

/-- Witness for C6 (amended): override 3, quantity 2, total 6. -/
theorem order_total_truthy_override_witness :
    overrideItem.eventId = some 1 ∧
    sampleDB.events.find? (fun e => e.id == 1) = some sampleEvent ∧
    resolveTT overrideItem sampleEvent = .ok sampleTT ∧
    ¬ sampleTT.quantity - sampleTT.soldCount < overrideItem.quantity.getD 1 ∧
    (fun _ : Nat => true) sampleDB.nextOrderId = true ∧
    (∃ db2 order,
      POST (fun _ => true) (some 7) 999 sampleDB
          { items := [overrideItem], userInfo := none, paymentMethod := none,
            total := none } =
        (db2, .ok 201
          [{ order := order, event := sampleEvent, tickets := none }]) ∧
      order.total =
        (if truthyPrice overrideItem.price then overrideItem.price.getD 0
         else sampleTT.price) * (overrideItem.quantity.getD 1)) :=
  ⟨rfl, rfl, rfl, by decide, rfl,
    order_total_truthy_override (fun _ => true) 7 999 sampleDB overrideItem 1
      sampleEvent sampleTT none none none rfl rfl rfl (by decide) rfl⟩

/-- Counterexample for C7 as stated: a supplied name matching no type of
the event fails with status 400, not the 404 the claim requires. -/
theorem ticket_type_name_miss_counterexample :
    POST (fun _ => true) (some 7) 999 sampleDB
        { items := [nameMissItem], userInfo := none, paymentMethod := none,
          total := none } =
      (sampleDB, .err 400 "No ticket types available for this event") ∧
    (400 : Nat) ≠ 404 := by
  refine ⟨?_, ?_⟩ <;> decide

/-- Claim C7 (corrected, amended form): resolution is by id, else by
name, else the event's first type; a supplied id matching no type fails
with 404, while a supplied name matching no type, or an event with no
types, falls into the handler's second guard and fails with 400
(part_001 lines 108-132); in every case the database is unchanged. -/
theorem ticket_type_resolution_failures
    (emailOk : Nat → Bool) (uid now : Nat) (db : DB) (item : Item)
    (eid : Nat) (ev : Event)
    (ui pm : Option String) (tot : Option Int)
    (hE : item.eventId = some eid)
    (hF : db.events.find? (fun e => e.id == eid) = some ev) :
    (∀ tid, item.ticketTypeId = some tid →
      ev.ticketTypes.find? (fun t => t.id == tid) = none →
      POST emailOk (some uid) now db
          { items := [item], userInfo := ui, paymentMethod := pm, total := tot } =
        (db, .err 404 "Ticket type not found")) ∧
    (item.ticketTypeId = none → ∀ nm, item.ticketType = some nm →
      ev.ticketTypes.find? (fun t => t.name == nm) = none →
      POST emailOk (some uid) now db
          { items := [item], userInfo := ui, paymentMethod := pm, total := tot } =
        (db, .err 400 "No ticket types available for this event")) ∧
    (item.ticketTypeId = none → item.ticketType = none → ev.ticketTypes = [] →
      POST emailOk (some uid) now db
          { items := [item], userInfo := ui, paymentMethod := pm, total := tot } =
        (db, .err 400 "No ticket types available for this event")) := by
  refine ⟨?_, ?_, ?_⟩
  · intro tid htid hfind
    have hR : resolveTT item ev = .error (404, "Ticket type not found") := by
      unfold resolveTT
      rw [htid]
      dsimp only
      rw [hfind]
    rw [POST_single,
      processItem_resolveErr emailOk uid now db item eid ev _ _ hE hF hR]
  · intro htid nm hnm hfind
    have hR : resolveTT item ev =
        .error (400, "No ticket types available for this event") := by
      unfold resolveTT
      rw [htid]
      dsimp only
      rw [hnm]
      dsimp only
      rw [hfind]
    rw [POST_single,
      processItem_resolveErr emailOk uid now db item eid ev _ _ hE hF hR]
  · intro htid hnm hnil
    have hR : resolveTT item ev =
        .error (400, "No ticket types available for this event") := by
      unfold resolveTT
      rw [htid]
      dsimp only
      rw [hnm]
      dsimp only
      rw [hnil]
      rfl
    rw [POST_single,
      processItem_resolveErr emailOk uid now db item eid ev _ _ hE hF hR]

/-- Witness for C7 (amended): an unknown ticket-type id yields 404 with
no mutation. -/
theorem ticket_type_resolution_failures_witness :
    idMissItem.eventId = some 1 ∧
    sampleDB.events.find? (fun e => e.id == 1) = some sampleEvent ∧
    idMissItem.ticketTypeId = some 99 ∧
    sampleEvent.ticketTypes.find? (fun t => t.id == 99) = none ∧
    POST (fun _ => true) (some 7) 999 sampleDB
        { items := [idMissItem], userInfo := none, paymentMethod := none,
          total := none } =
      (sampleDB, .err 404 "Ticket type not found") :=
  ⟨rfl, rfl, rfl, rfl,
    (ticket_type_resolution_failures (fun _ => true) 7 999 sampleDB idMissItem
      1 sampleEvent none none none rfl rfl).1 99 rfl rfl⟩

/-- Counterexample for C8 as stated: after a fully successful two-ticket
purchase the single returned order carries no nested tickets, while two
issued tickets exist in the database. -/
theorem response_no_nested_tickets_counterexample :
    ((POST (fun _ => true) (some 7) 999 sampleDB
        { items := [vipItem], userInfo := none, paymentMethod := none,
          total := none }).2.respOrders.map CreatedOrder.tickets) = [none] ∧
    (POST (fun _ => true) (some 7) 999 sampleDB
        { items := [vipItem], userInfo := none, paymentMethod := none,
          total := none }).1.tickets.length = 2 := by
  refine ⟨?_, ?_⟩ <;> decide

/-- Claim C8 (corrected, amended form): the 201 response contains the
created orders with the event nested and no tickets nested: the order
create's include clause names only event (part_001 lines 152-154), and
the tickets, though persisted and referencing the order, are never
attached to the returned order objects. -/
theorem response_orders_without_tickets
    (emailOk : Nat → Bool) (uid now : Nat) (db : DB) (item : Item)
    (eid : Nat) (ev : Event) (tt : TicketType)
    (ui pm : Option String) (tot : Option Int)
    (hE : item.eventId = some eid)
    (hF : db.events.find? (fun e => e.id == eid) = some ev)
    (hR : resolveTT item ev = .ok tt)
    (hA : ¬ tt.quantity - tt.soldCount < item.quantity.getD 1)
    (hMail : emailOk db.nextOrderId = true) :
    ∃ db2 order newTickets,
      POST emailOk (some uid) now db
          { items := [item], userInfo := ui, paymentMethod := pm, total := tot } =
        (db2, .ok 201 [{ order := order, event := ev, tickets := none }]) ∧
      db2.tickets = db.tickets ++ newTickets ∧
      newTickets.length = (item.quantity.getD 1).toNat ∧
      (∀ t ∈ newTickets, t.orderId = order.id) := by
  refine ⟨{ events :=
              incEventSold eid (item.quantity.getD 1)
                (incTicketTypeSold tt.id (item.quantity.getD 1) db.events),
            orders := db.orders ++ [itemOrder uid db item eid tt],
            tickets :=
              db.tickets ++ mintTickets uid now eid db.nextOrderId tt.id
                db.nextTicketId tt.name tt.price (item.quantity.getD 1).toNat,
            nextOrderId := db.nextOrderId + 1,
            nextTicketId := db.nextTicketId + (item.quantity.getD 1).toNat },
    itemOrder uid db item eid tt,
    mintTickets uid now eid db.nextOrderId tt.id db.nextTicketId tt.name
      tt.price (item.quantity.getD 1).toNat, ?_, rfl, ?_, ?_⟩
  · rw [POST_single,
      processItem_ok emailOk uid now db item eid ev tt hE hF hR hA hMail]
  · simp [mintTickets]
  · intro t ht
    simp only [mintTickets, List.mem_map, List.mem_range] at ht
    obtain ⟨i, hi, rfl⟩ := ht
    rfl

/-- Witness for C8 (amended): a successful purchase returns the order
with no nested tickets while the tickets sit in the database. -/
theorem response_orders_without_tickets_witness :
    vipItem.eventId = some 1 ∧
    sampleDB.events.find? (fun e => e.id == 1) = some sampleEvent ∧
    resolveTT vipItem sampleEvent = .ok sampleTT ∧
    ¬ sampleTT.quantity - sampleTT.soldCount < vipItem.quantity.getD 1 ∧
    (fun _ : Nat => true) sampleDB.nextOrderId = true ∧
    (∃ db2 order newTickets,
      POST (fun _ => true) (some 7) 999 sampleDB
          { items := [vipItem], userInfo := none, paymentMethod := none,
            total := none } =
        (db2, .ok 201
          [{ order := order, event := sampleEvent, tickets := none }]) ∧
      db2.tickets = sampleDB.tickets ++ newTickets ∧
      newTickets.length = (vipItem.quantity.getD 1).toNat ∧
      (∀ t ∈ newTickets, t.orderId = order.id)) :=
  ⟨rfl, rfl, rfl, by decide, rfl,
    response_orders_without_tickets (fun _ => true) 7 999 sampleDB vipItem 1
      sampleEvent sampleTT none none none rfl rfl rfl (by decide) rfl⟩

theorem mintTickets_orderId (uid now eid oid ttId base : Nat) (nm : String)
    (pr : Int) (q : Nat) :
    ∀ t ∈ mintTickets uid now eid oid ttId base nm pr q,
      t.qrCode.orderId = oid := by
  intro t ht
  simp only [mintTickets, List.mem_map, List.mem_range] at ht
  obtain ⟨i, hi, rfl⟩ := ht
  rfl

theorem mintTickets_qrDistinct (uid now eid oid ttId base : Nat) (nm : String)
    (pr : Int) (q : Nat) :
    qrDistinct (mintTickets uid now eid oid ttId base nm pr q) := by
  unfold qrDistinct mintTickets
  rw [List.pairwise_map]
  refine (List.pairwise_lt_range q).imp ?_
  intro i j hij hcontra
  have h2 := congrArg QRPayload.ticketNumber hcontra
  simp only at h2
  omega

theorem qr_append (db : DB) (uid now eid ttId : Nat) (nm : String) (pr : Int)
    (q : Nat) (h1 : qrDistinct db.tickets) (h2 : qrFresh db) :
    qrDistinct (db.tickets ++
      mintTickets uid now eid db.nextOrderId ttId db.nextTicketId nm pr q) ∧
    ∀ t ∈ db.tickets ++
        mintTickets uid now eid db.nextOrderId ttId db.nextTicketId nm pr q,
      t.qrCode.orderId < db.nextOrderId + 1 := by
  constructor
  · unfold qrDistinct
    rw [List.pairwise_append]
    refine ⟨h1, mintTickets_qrDistinct uid now eid db.nextOrderId ttId
      db.nextTicketId nm pr q, ?_⟩
    intro a ha b hb hcontra
    have hb2 := mintTickets_orderId uid now eid db.nextOrderId ttId
      db.nextTicketId nm pr q b hb
    have ha2 := h2 a ha
    rw [hcontra, hb2] at ha2
    exact lt_irrefl _ ha2
  · intro t ht
    rcases List.mem_append.mp ht with h | h
    · exact (h2 t h).trans (Nat.lt_succ_self _)
    · rw [mintTickets_orderId uid now eid db.nextOrderId ttId
        db.nextTicketId nm pr q t h]
      exact Nat.lt_succ_self _

theorem processItem_qr (emailOk : Nat → Bool) (uid now : Nat) (db : DB)
    (item : Item) (h1 : qrDistinct db.tickets) (h2 : qrFresh db) :
    qrDistinct (processItem emailOk uid now db item).resultDB.tickets ∧
    qrFresh (processItem emailOk uid now db item).resultDB := by
  unfold processItem
  split
  · exact ⟨h1, h2⟩
  · split
    · exact ⟨h1, h2⟩
    · split
      · exact ⟨h1, h2⟩
      · dsimp only
        split
        · exact ⟨h1, h2⟩
        · split
          · exact qr_append db uid now _ _ _ _ _ h1 h2
          · exact qr_append db uid now _ _ _ _ _ h1 h2

theorem processItems_qr (emailOk : Nat → Bool) (uid now : Nat) :
    ∀ (items : List Item) (db : DB) (acc : List CreatedOrder),
      qrDistinct db.tickets → qrFresh db →
      qrDistinct (processItems emailOk uid now db items acc).1.tickets ∧
      qrFresh (processItems emailOk uid now db items acc).1 := by
  intro items
  induction items with
  | nil => intro db acc h1 h2; exact ⟨h1, h2⟩
  | cons it rest ih =>
    intro db acc h1 h2
    unfold processItems
    have hstep := processItem_qr emailOk uid now db it h1 h2
    cases hres : processItem emailOk uid now db it with
    | ok db2 c =>
      rw [hres] at hstep
      exact ih db2 (acc ++ [c]) hstep.1 hstep.2
    | fail db2 st m =>
      rw [hres] at hstep
      exact hstep

/-- Claim C9 (confirmed): POST preserves credential uniqueness — from any
database whose stored payloads are pairwise distinct and whose embedded
order ids are below the order-id counter (both hold for the empty
database, hence for every database reachable by purchases), all
payloads after POST are pairwise distinct.  Within one order the
payloads differ in sequence number; across orders they differ in the
database-assigned order id — the tuple (orderId, ticketNumber) plus the
timestamp of part_001 lines 160-166, never a counter alone. -/
theorem post_credential_uniqueness (emailOk : Nat → Bool) (s : Option Nat)
    (now : Nat) (db : DB) (body : Body)
    (h1 : qrDistinct db.tickets) (h2 : qrFresh db) :
    qrDistinct (POST emailOk s now db body).1.tickets ∧
    qrFresh (POST emailOk s now db body).1 := by
  unfold POST
  cases s with
  | none => exact ⟨h1, h2⟩
  | some uid =>
    by_cases he : body.items.isEmpty = true
    · simp only [he, if_true]
      exact ⟨h1, h2⟩
    · simp only [he, if_false]
      exact processItems_qr emailOk uid now body.items db [] h1 h2

/-- Witness for C9: a purchase from the empty-ticket database. -/
theorem post_credential_uniqueness_witness :
    qrDistinct sampleDB.tickets ∧ qrFresh sampleDB ∧
    (qrDistinct
        (POST (fun _ => true) (some 7) 999 sampleDB (mkBody vipItem)).1.tickets ∧
      qrFresh (POST (fun _ => true) (some 7) 999 sampleDB (mkBody vipItem)).1) :=
  ⟨List.Pairwise.nil, fun t ht => absurd ht (List.not_mem_nil t),
    post_credential_uniqueness (fun _ => true) (some 7) 999 sampleDB
      (mkBody vipItem) List.Pairwise.nil
      (fun t ht => absurd ht (List.not_mem_nil t))⟩

theorem processItem_ordersPending (emailOk : Nat → Bool) (uid now : Nat)
    (db : DB) (item : Item) :
    ∀ o ∈ (processItem emailOk uid now db item).resultDB.orders,
      o ∈ db.orders ∨ o.orderStatus = OrderStatus.PENDING := by
  unfold processItem
  split
  · exact fun o ho => .inl ho
  · split
    · exact fun o ho => .inl ho
    · split
      · exact fun o ho => .inl ho
      · dsimp only
        split
        · exact fun o ho => .inl ho
        · split
          · intro o ho
            rcases List.mem_append.mp ho with h | h
            · exact .inl h
            · right
              rw [List.mem_singleton.mp h]
          · intro o ho
            rcases List.mem_append.mp ho with h | h
            · exact .inl h
            · right
              rw [List.mem_singleton.mp h]

theorem processItems_ordersPending (emailOk : Nat → Bool) (uid now : Nat) :
    ∀ (items : List Item) (db : DB) (acc : List CreatedOrder),
      ∀ o ∈ (processItems emailOk uid now db items acc).1.orders,
        o ∈ db.orders ∨ o.orderStatus = OrderStatus.PENDING := by
  intro items
  induction items with
  | nil => intro db acc o ho; exact .inl ho
  | cons it rest ih =>
    intro db acc o ho
    rw [processItems] at ho
    have hstep := processItem_ordersPending emailOk uid now db it
    cases hres : processItem emailOk uid now db it with
    | ok db2 c =>
      rw [hres] at ho hstep
      rcases ih db2 (acc ++ [c]) o ho with h | h
      · exact hstep o h
      · exact .inr h
    | fail db2 st m =>
      rw [hres] at ho hstep
      exact hstep o ho

/-- Claim C10 (confirmed): two requests differing only in the body's
top-level total, paymentMethod or userInfo fields produce identical
databases and responses — the handler destructures but never uses them
(part_001 line 79), computing the total server-side — and every order
POST creates carries the schema-default PENDING status. -/
theorem post_ignores_client_fields (emailOk : Nat → Bool) (s : Option Nat)
    (now : Nat) (db : DB) (items : List Item)
    (u1 u2 p1 p2 : Option String) (t1 t2 : Option Int) :
    POST emailOk s now db
        { items := items, userInfo := u1, paymentMethod := p1, total := t1 } =
      POST emailOk s now db
        { items := items, userInfo := u2, paymentMethod := p2, total := t2 } ∧
    ∀ o ∈ (POST emailOk s now db
        { items := items, userInfo := u1, paymentMethod := p1,
          total := t1 }).1.orders,
      o ∈ db.orders ∨ o.orderStatus = OrderStatus.PENDING := by
  constructor
  · cases s with
    | none => rfl
    | some uid => rfl
  · unfold POST
    cases s with
    | none => exact fun o ho => .inl ho
    | some uid =>
      by_cases he : items.isEmpty = true
      · simp only [he, if_true]
        exact fun o ho => .inl ho
      · simp only [he, if_false]
        exact processItems_ordersPending emailOk uid now items db []

end QRGates
